import Mathlib

/-!
Verification of the harp-updater-gui deployment logic.

Shallow embedding of the core logic of the repository:
 - `models/device.py` (Device model, port validation, derived health fields),
 - `services/firmware_service.py` (firmware file validation),
 - `components/device_table.py` (deployment eligibility gate, deploy action),
 - `main.py` (upload orchestration with batch semantics).

The filesystem is modelled as a predicate `fs : String → Bool` (file
existence), and the external upload tool as an oracle
`uploads : Nat → Bool × String` giving the (success, output) result of the
upload attempt for the device at each position of the request.
-/

namespace HarpUpdater

/-- Device model, mirroring the pydantic `Device` in `models/device.py`.
Optional fields are `Option`-typed exactly as in the source. -/
structure Device where
  confidence : String
  kind : String
  state : String
  port_name : Option String := none
  who_am_i : Option Int := none
  device_description : Option String := none
  serial_number : Option String := none
  firmware_version : Option String := none
  hardware_version : Option String := none
  source : Option String := none
deriving Repr, DecidableEq

/-- Python truthiness of an optional string (`None` and `""` are falsy). -/
def strTruthy : Option String → Bool
  | none => false
  | some s => !s.isEmpty

/-- Python truthiness of an optional integer (`None` and `0` are falsy). -/
def intTruthy : Option Int → Bool
  | none => false
  | some n => n != 0

/-- Model of `Device.validate_port_name` (pydantic model validator, `models/device.py`):
construction fails when `port_name` is `None` and the state is neither
`Bootloader` nor `DriverError`. -/
def validate_port_name (d : Device) : Except String Device :=
  if ¬ (d.state = "Bootloader" ∨ d.state = "DriverError") ∧ d.port_name = none then
    Except.error ("port_name is required when device state is " ++ d.state)
  else
    Except.ok d

/-- Model of `Device.display_name` (`models/device.py`). -/
def display_name (d : Device) : String :=
  if strTruthy d.device_description then d.device_description.getD ""
  else if intTruthy d.who_am_i then "Device " ++ toString (d.who_am_i.getD 0)
  else if strTruthy d.port_name then "Device on " ++ d.port_name.getD ""
  else "Unknown Device"

/-- Model of `Device.health_status` (`models/device.py`). -/
def health_status (d : Device) : String :=
  if d.state = "Online" then "Healthy"
  else if d.state = "Bootloader" then "Bootloader"
  else if d.state = "DriverError" then "Error"
  else "Unknown"

/-- Model of `Device.health_color` (`models/device.py`), derived from `health_status`. -/
def health_color (d : Device) : String :=
  let status := health_status d
  if status = "Healthy" then "green"
  else if status = "Bootloader" then "yellow"
  else if status = "Error" then "red"
  else "gray"

/-- Model of `DeviceTable._get_deploy_eligibility` (`components/device_table.py`):
given the device inventory, the currently selected device and the value of
the batch-update checkbox, decide whether deployment may proceed, with a
blocking reason otherwise. -/
def getDeployEligibility (devices : List Device) (selected : Option Device)
    (batchChecked : Bool) : Bool × Option String :=
  if devices.isEmpty then
    (false, some "No devices available for firmware deployment")
  else
    let bootloaderDevices := devices.filter (fun d => d.state == "Bootloader")
    let errorDevices :=
      devices.filter (fun d => d.state == "DriverError" || d.state == "DeviceError")
    if !errorDevices.isEmpty then
      (false, some "Deployment blocked: one or more devices are in DeviceError state")
    else
      match bootloaderDevices with
      | [bootloader_device] =>
        match selected with
        | none => (false, some "Select the Bootloader device to deploy firmware")
        | some sel =>
          if sel.port_name ≠ bootloader_device.port_name then
            (false, some "Deployment allowed only to the single Bootloader device")
          else if batchChecked then
            (false,
              some "Batch update is not allowed when exactly one device is in Bootloader state")
          else
            (true, none)
      | _ :: _ :: _ =>
        (false, some "Deployment blocked: multiple devices are in Bootloader state")
      | [] => (true, none)

/-! ## Firmware file validation (`services/firmware_service.py`)

`validate_firmware_file` uses `pathlib.Path(p).exists()` and
`Path(p).suffix.lower()`.  The path machinery is embedded here:
`pathSuffix` mirrors the pathlib `suffix` property (the part of the final
path component from its last dot on, empty when the dot is absent, leading
or trailing), with both `/` and `\` accepted as separators, as on the
Windows deployment platform.  Drive-letter handling is elided. -/

/-- Split a character list on path separator characters. -/
def splitOnSep (acc : List Char) : List Char → List (List Char)
  | [] => [acc.reverse]
  | c :: cs =>
    if c = '/' ∨ c = '\\' then acc.reverse :: splitOnSep [] cs
    else splitOnSep (c :: acc) cs

/-- Final component of a path, mirroring `pathlib.PurePath.name`
(empty components and `.` components are dropped). -/
def pathName (p : String) : List Char :=
  let comps := (splitOnSep [] p.data).filter (fun s => !s.isEmpty && !(s == ['.']))
  (comps.getLast?).getD []

/-- Index of the last `.` in a character list, if any. -/
def lastDotIdx (cs : List Char) : Option Nat :=
  ((List.range cs.length).filter (fun i => cs.getD i ' ' == '.')).getLast?

/-- Model of `pathlib.PurePath.suffix`: the extension of the final component,
i.e. `name[i:]` for `i` the index of the last dot when `0 < i < len - 1`,
else the empty string. -/
def pathSuffix (p : String) : String :=
  let name := pathName p
  match lastDotIdx name with
  | some i => if 0 < i ∧ i + 1 < name.length then String.mk (name.drop i) else ""
  | none => ""

/-- ASCII `str.lower()`. -/
def lowerString (s : String) : String :=
  String.mk (s.data.map Char.toLower)

/-- Model of `FirmwareService.get_firmware_type` (`services/firmware_service.py`):
the lower-cased suffix when it is `.uf2` or `.hex`, else `None`. -/
def get_firmware_type (firmware_path : String) : Option String :=
  let ext := lowerString (pathSuffix firmware_path)
  if ext = ".uf2" ∨ ext = ".hex" then some ext else none

/-- Model of `FirmwareService.validate_firmware_file` (`services/firmware_service.py`),
over an abstract filesystem `fs` giving file existence. -/
def validate_firmware_file (fs : String → Bool) (device_kind : String)
    (firmware_path : String) : Bool × String :=
  if fs firmware_path = false then
    (false, "Firmware file does not exist")
  else
    let ext := get_firmware_type firmware_path
    if ext ≠ some ".uf2" ∧ ext ≠ some ".hex" then
      (false, "Unsupported firmware file type")
    else if device_kind = "Pico" ∧ ext ≠ some ".uf2" then
      (false, "Pico devices require .uf2 firmware files")
    else if device_kind = "ATxmega" ∧ ext ≠ some ".hex" then
      (false, "ATxmega devices require .hex firmware files")
    else
      (true, "")

/-! ## Upload orchestration (`main.py`, `HarpFirmwareUpdaterApp.on_firmware_deploy`)

The upload tool is an oracle `uploads : Nat → Bool × String`: the
(success, output) returned by `upload_firmware_to_device` for the device
at position `i` of the request.  The embedding records the observables the
claims are about: which positions were attempted and in what order, the
`success_count` / `fail_count` accumulators, the failure log events (one
`(position, output)` pair per failed upload), whether the single-device
settle/verify step ran, and the terminal outcome. -/

/-- Terminal outcome of one `on_firmware_deploy` run. -/
inductive Outcome where
  /-- Access to `devices[0]` raised on an empty request; caught by the top-level handler. -/
  | exceptionCaught
  /-- Validation failed; `show_error` with the validator message, nothing flashed. -/
  | validationFailed (msg : String)
  /-- Single-device upload failure; `withForceHint` is true exactly when the
  error dialog was `show_error_with_force` (the force flag was not set). -/
  | singleFailed (withForceHint : Bool) (output : String)
  /-- Single-device success path: settle, verify, `complete_update(True)`. -/
  | singleCompleted
  /-- Batch summary path, carrying the recorded counters. -/
  | batchCompleted (successCount : Nat) (failCount : Nat)
deriving Repr, DecidableEq

/-- Observables of one orchestration run. -/
structure OrchResult where
  attempts : List Nat
  successCount : Nat
  failCount : Nat
  failureEvents : List (Nat × String)
  verifyRan : Bool
  outcome : Outcome
deriving Repr, DecidableEq

/-- Accumulator of the flashing loop of `on_firmware_deploy`. -/
structure FlashAcc where
  attempts : List Nat
  successCount : Nat
  failCount : Nat
  failureEvents : List (Nat × String)
  /-- Holds `some (hint, output)` when the single-device path returned mid-loop. -/
  aborted : Option (Bool × String)
deriving Repr, DecidableEq

/-- The `for idx, device in enumerate(devices, 1)` loop of
`on_firmware_deploy`: upload to each device in order; on failure record a
failure event; in single mode return immediately (with a force hint when
`force` was not set), in batch mode continue with the next device. -/
def flashLoop (uploads : Nat → Bool × String) (isBatch : Bool) (force : Bool) :
    List Device → Nat → FlashAcc
  | [], _ => ⟨[], 0, 0, [], none⟩
  | _d :: rest, idx =>
    let r := uploads idx
    if r.1 then
      let acc := flashLoop uploads isBatch force rest (idx + 1)
      ⟨idx :: acc.attempts, acc.successCount + 1, acc.failCount,
        acc.failureEvents, acc.aborted⟩
    else if isBatch then
      let acc := flashLoop uploads isBatch force rest (idx + 1)
      ⟨idx :: acc.attempts, acc.successCount, acc.failCount + 1,
        (idx, r.2) :: acc.failureEvents, acc.aborted⟩
    else
      ⟨[idx], 0, 1, [(idx, r.2)], some (!force, r.2)⟩

/-- Model of `HarpFirmwareUpdaterApp.on_firmware_deploy` (`main.py`): validate the
firmware file against the first device kind, then flash each device in
request order, then report (batch summary, or single-device settle/verify
and completion). -/
def on_firmware_deploy (fs : String → Bool) (uploads : Nat → Bool × String)
    (devices : List Device) (firmware_path : String) (force : Bool) : OrchResult :=
  match devices with
  | [] => ⟨[], 0, 0, [], false, Outcome.exceptionCaught⟩
  | d0 :: rest =>
    let isBatch : Bool := !rest.isEmpty
    let v := validate_firmware_file fs d0.kind firmware_path
    if v.1 = false then
      ⟨[], 0, 0, [], false, Outcome.validationFailed v.2⟩
    else
      let acc := flashLoop uploads isBatch force (d0 :: rest) 0
      match acc.aborted with
      | some (hint, output) =>
        ⟨acc.attempts, acc.successCount, acc.failCount, acc.failureEvents,
          false, Outcome.singleFailed hint output⟩
      | none =>
        if isBatch then
          ⟨acc.attempts, acc.successCount, acc.failCount, acc.failureEvents,
            false, Outcome.batchCompleted acc.successCount acc.failCount⟩
        else
          ⟨acc.attempts, acc.successCount, acc.failCount, acc.failureEvents,
            true, Outcome.singleCompleted⟩

/-! ## Deploy action of the device table
(`components/device_table.py`, `DeviceTable.deploy_firmware`) -/

/-- UI state read by `DeviceTable.deploy_firmware`. -/
structure TableState where
  devices : List Device
  selected : Option Device
  firmware_file_path : Option String
  force_upload_checkbox : Bool
  batch_update_checkbox : Bool
deriving Repr, DecidableEq

/-- What one click of the deploy button does. -/
inductive DeployOutcome where
  | notifySelectDevice
  | notifySelectFile
  | notifyBlocked (reason : String)
  /-- The callback `on_deploy(targets, path, force)` was invoked. -/
  | deployed (targets : List Device) (path : String) (force : Bool)
deriving Repr, DecidableEq

/-- Model of `DeviceTable.deploy_firmware`: guard on selection, file and
eligibility; for Pico/PICO devices set the force-upload checkbox to true
before reading it; resolve batch targets by display name; reset the
force-upload checkbox after the deployment callback returns.  The second
component is the table state after the call. -/
def deploy_firmware (s : TableState) : DeployOutcome × TableState :=
  match s.selected with
  | none => (DeployOutcome.notifySelectDevice, s)
  | some sel =>
    if strTruthy s.firmware_file_path = false then
      (DeployOutcome.notifySelectFile, s)
    else
      let path := s.firmware_file_path.getD ""
      let e := getDeployEligibility s.devices (some sel) s.batch_update_checkbox
      if e.1 = false then
        (DeployOutcome.notifyBlocked (e.2.getD ""), s)
      else
        let forceBox : Bool :=
          if sel.kind = "Pico" ∨ sel.kind = "PICO" then true
          else s.force_upload_checkbox
        let force := forceBox
        let targets :=
          if s.batch_update_checkbox then
            s.devices.filter (fun d => display_name d == display_name sel)
          else [sel]
        (DeployOutcome.deployed targets path force,
          { s with force_upload_checkbox := false })

/-! ## Concrete devices used by the witness theorems -/

/-- A healthy online Pico device on COM3. -/
def devOnline : Device :=
  { confidence := "High", kind := "Pico", state := "Online",
    port_name := some "COM3", device_description := some "Sensor" }

/-- A device in Bootloader state on COM5. -/
def devBoot : Device :=
  { confidence := "High", kind := "Pico", state := "Bootloader",
    port_name := some "COM5" }

/-- A device in DeviceError state on COM7. -/
def devErr : Device :=
  { confidence := "High", kind := "Pico", state := "DeviceError",
    port_name := some "COM7" }

/-- An online device reported with no port name (construction must fail). -/
def devNoPort : Device :=
  { confidence := "Low", kind := "Unknown", state := "Online",
    port_name := none }

/-! ## Claims about the eligibility gate -/

/-- C1: for every inventory containing at least one device whose state is
DriverError or DeviceError, the deployment eligibility evaluation returns
blocked, for every selection (including none) and for both values of the
batch flag. -/
theorem c1_error_devices_block (devices : List Device) (sel : Option Device)
    (batch : Bool) (d : Device) (hmem : d ∈ devices)
    (hstate : d.state = "DriverError" ∨ d.state = "DeviceError") :
    (getDeployEligibility devices sel batch).1 = false := by
  have hne : devices.isEmpty = false := by
    cases devices with
    | nil => cases hmem
    | cons a l => rfl
  have hdmem :
      d ∈ devices.filter
        (fun d => d.state == "DriverError" || d.state == "DeviceError") := by
    refine List.mem_filter.mpr ⟨hmem, ?_⟩
    rcases hstate with h | h <;> simp [h]
  have herr :
      (devices.filter
        (fun d => d.state == "DriverError" || d.state == "DeviceError")).isEmpty
        = false := by
    cases hf : devices.filter
        (fun d => d.state == "DriverError" || d.state == "DeviceError") with
    | nil => rw [hf] at hdmem; cases hdmem
    | cons a l => rfl
  simp [getDeployEligibility, hne, herr]

/-- C1 witness: an inventory holding a DeviceError device is blocked. -/
theorem c1_error_devices_block_witness :
    (getDeployEligibility [devOnline, devErr] (some devOnline) false).1 = false :=
  c1_error_devices_block [devOnline, devErr] (some devOnline) false devErr
    (by simp) (Or.inr rfl)

/-- C4: for every inventory with exactly one Bootloader device and no
DriverError/DeviceError device, selecting a device with the bootloader
device's port with the batch flag off makes the eligibility evaluation
return allowed. -/
theorem c4_single_bootloader_allowed (devices : List Device) (bd sel : Device)
    (hboot : devices.filter (fun d => d.state == "Bootloader") = [bd])
    (herr : devices.filter
      (fun d => d.state == "DriverError" || d.state == "DeviceError") = [])
    (hport : sel.port_name = bd.port_name) :
    getDeployEligibility devices (some sel) false = (true, none) := by
  have hne : devices.isEmpty = false := by
    cases devices with
    | nil => simp at hboot
    | cons a l => rfl
  simp [getDeployEligibility, hne, hboot, herr, hport]

/-- C4 witness: a lone Bootloader device, selected by its own port. -/
theorem c4_single_bootloader_allowed_witness :
    getDeployEligibility [devBoot] (some devBoot) false = (true, none) :=
  c4_single_bootloader_allowed [devBoot] devBoot devBoot (by rfl) (by rfl) rfl

/-! ## Claims about the Device model -/

/-- C7: constructing a Device fails exactly when the port identifier is
absent and the state is neither Bootloader nor DriverError; every
successfully constructed Device whose state is neither of those has a port
identifier. -/
theorem c7_port_required (d : Device) :
    ((validate_port_name d).isOk = false ↔
      d.port_name = none ∧ d.state ≠ "Bootloader" ∧ d.state ≠ "DriverError") ∧
    (∀ d', validate_port_name d = Except.ok d' →
      d'.state ≠ "Bootloader" → d'.state ≠ "DriverError" →
      d'.port_name ≠ none) := by
  by_cases hc :
      ¬ (d.state = "Bootloader" ∨ d.state = "DriverError") ∧ d.port_name = none
  · constructor
    · rw [validate_port_name, if_pos hc]
      simp only [Except.isOk, Except.toBool, true_iff]
      exact ⟨hc.2, fun h => hc.1 (Or.inl h), fun h => hc.1 (Or.inr h)⟩
    · intro d' hok
      rw [validate_port_name, if_pos hc] at hok
      cases hok
  · constructor
    · rw [validate_port_name, if_neg hc]
      simp only [Except.isOk, Except.toBool]
      constructor
      · intro h; exact Bool.noConfusion h
      · intro ⟨hp, h1, h2⟩
        exact (hc ⟨fun h => h.elim h1 h2, hp⟩).elim
    · intro d' hok h1 h2
      rw [validate_port_name, if_neg hc] at hok
      cases hok
      intro hp
      exact hc ⟨fun h => h.elim h1 h2, hp⟩

/-- C7 witness: an Online device without a port fails construction; an
Online device that was constructed has a port. -/
theorem c7_port_required_witness :
    (validate_port_name devNoPort).isOk = false ∧ devOnline.port_name ≠ none :=
  ⟨(c7_port_required devNoPort).1.mpr ⟨rfl, by decide, by decide⟩,
    (c7_port_required devOnline).2 devOnline rfl (by decide) (by decide)⟩

/-- C10: the derived health category is Healthy for Online, Bootloader for
Bootloader, Error for DriverError, and Unknown otherwise; in particular a
DeviceError device has health category Unknown with color gray. -/
theorem c10_health_status (d : Device) :
    (d.state = "Online" → health_status d = "Healthy") ∧
    (d.state = "Bootloader" → health_status d = "Bootloader") ∧
    (d.state = "DriverError" → health_status d = "Error") ∧
    (d.state ≠ "Online" → d.state ≠ "Bootloader" → d.state ≠ "DriverError" →
      health_status d = "Unknown") ∧
    (d.state = "DeviceError" →
      health_status d = "Unknown" ∧ health_color d = "gray") := by
  refine ⟨?_, ?_, ?_, ?_, ?_⟩
  · intro h; simp only [health_status, health_color, h]; decide
  · intro h; simp only [health_status, health_color, h]; decide
  · intro h; simp only [health_status, health_color, h]; decide
  · intro h1 h2 h3; simp [health_status, h1, h2, h3]
  · intro h; simp only [health_status, health_color, h]; decide

/-- C10 witness: the DeviceError demo device is Unknown and gray. -/
theorem c10_health_status_witness :
    health_status devErr = "Unknown" ∧ health_color devErr = "gray" :=
  (c10_health_status devErr).2.2.2.2 rfl

/-! ## Claims about firmware file validation -/

/-- C5: validation for kind Pico succeeds iff the file exists and its
lower-cased extension is `.uf2`, for kind ATxmega iff it exists and the
extension is `.hex`; the checks run in the order file-exists,
recognized-extension, kind-to-format match, and the first failing check
determines the returned error. -/
theorem c5_validate_rules (fs : String → Bool) (p : String) :
    ((validate_firmware_file fs "Pico" p).1 = true ↔
      fs p = true ∧ lowerString (pathSuffix p) = ".uf2") ∧
    ((validate_firmware_file fs "ATxmega" p).1 = true ↔
      fs p = true ∧ lowerString (pathSuffix p) = ".hex") ∧
    (∀ kind, fs p = false →
      validate_firmware_file fs kind p =
        (false, "Firmware file does not exist")) ∧
    (∀ kind, fs p = true → get_firmware_type p = none →
      validate_firmware_file fs kind p =
        (false, "Unsupported firmware file type")) ∧
    (fs p = true → lowerString (pathSuffix p) = ".hex" →
      validate_firmware_file fs "Pico" p =
        (false, "Pico devices require .uf2 firmware files")) ∧
    (fs p = true → lowerString (pathSuffix p) = ".uf2" →
      validate_firmware_file fs "ATxmega" p =
        (false, "ATxmega devices require .hex firmware files")) := by
  refine ⟨?_, ?_, ?_, ?_, ?_, ?_⟩
  · cases hfs : fs p with
    | false => simp [validate_firmware_file, hfs]
    | true =>
      by_cases h2 : lowerString (pathSuffix p) = ".uf2"
      · simp [validate_firmware_file, get_firmware_type, hfs, h2]
      · by_cases h3 : lowerString (pathSuffix p) = ".hex"
        · simp [validate_firmware_file, get_firmware_type, hfs, h2, h3]
        · simp [validate_firmware_file, get_firmware_type, hfs, h2, h3]
  · cases hfs : fs p with
    | false => simp [validate_firmware_file, hfs]
    | true =>
      by_cases h2 : lowerString (pathSuffix p) = ".uf2"
      · simp [validate_firmware_file, get_firmware_type, hfs, h2]
      · by_cases h3 : lowerString (pathSuffix p) = ".hex"
        · simp [validate_firmware_file, get_firmware_type, hfs, h2, h3]
        · simp [validate_firmware_file, get_firmware_type, hfs, h2, h3]
  · intro kind hfs; simp [validate_firmware_file, hfs]
  · intro kind hfs hnone
    have h2 : ¬ lowerString (pathSuffix p) = ".uf2" := by
      intro h; simp [get_firmware_type, h] at hnone
    have h3 : ¬ lowerString (pathSuffix p) = ".hex" := by
      intro h; simp [get_firmware_type, h] at hnone
    simp [validate_firmware_file, get_firmware_type, hfs, h2, h3]
  · intro hfs h3
    have h2 : ¬ lowerString (pathSuffix p) = ".uf2" := by
      rw [h3]; decide
    simp [validate_firmware_file, get_firmware_type, hfs, h2, h3]
  · intro hfs h2
    have h3 : ¬ lowerString (pathSuffix p) = ".hex" := by
      rw [h2]; decide
    simp [validate_firmware_file, get_firmware_type, hfs, h2, h3]

/-- C5 witness: concrete runs of the validator in each direction. -/
theorem c5_validate_rules_witness :
    (validate_firmware_file (fun _ => true) "Pico" "fw.uf2").1 = true ∧
    (validate_firmware_file (fun _ => true) "ATxmega" "fw.uf2") =
      (false, "ATxmega devices require .hex firmware files") ∧
    (validate_firmware_file (fun _ => false) "Pico" "fw.uf2") =
      (false, "Firmware file does not exist") :=
  ⟨(c5_validate_rules (fun _ => true) "fw.uf2").1.mpr ⟨rfl, by decide⟩,
    (c5_validate_rules (fun _ => true) "fw.uf2").2.2.2.2.2 rfl (by decide),
    (c5_validate_rules (fun _ => false) "fw.uf2").2.2.1 "Pico" rfl⟩

/-- C9: for every device kind other than Pico and ATxmega, validation
succeeds for every existing file whose lower-cased extension is `.uf2` or
`.hex`; unrecognized kinds have no incompatible-format outcome. -/
theorem c9_unknown_kind_accepts_both (fs : String → Bool) (kind p : String)
    (hk1 : kind ≠ "Pico") (hk2 : kind ≠ "ATxmega") (hfs : fs p = true)
    (hext : lowerString (pathSuffix p) = ".uf2" ∨
      lowerString (pathSuffix p) = ".hex") :
    validate_firmware_file fs kind p = (true, "") := by
  rcases hext with h | h <;>
    simp [validate_firmware_file, get_firmware_type, hfs, h, hk1, hk2]

/-- C9 witness: kind Unknown accepts an upper-case `.HEX` file. -/
theorem c9_unknown_kind_accepts_both_witness :
    validate_firmware_file (fun _ => true) "Unknown" "b.HEX" = (true, "") :=
  c9_unknown_kind_accepts_both (fun _ => true) "Unknown" "b.HEX"
    (by decide) (by decide) rfl (Or.inr (by decide))

/-! ## Claims about the upload orchestration -/

/-- In batch mode the flashing loop never aborts: it visits every position
in order and records each failure exactly once. -/
theorem flashLoop_batch_spec (uploads : Nat → Bool × String) (force : Bool)
    (ds : List Device) : ∀ idx : Nat,
    flashLoop uploads true force ds idx =
      ⟨List.range' idx ds.length,
        ((List.range' idx ds.length).filter (fun i => (uploads i).1)).length,
        ((List.range' idx ds.length).filter (fun i => !(uploads i).1)).length,
        ((List.range' idx ds.length).filter (fun i => !(uploads i).1)).map
          (fun i => (i, (uploads i).2)),
        none⟩ := by
  induction ds with
  | nil => intro idx; simp [flashLoop]
  | cons d rest ih =>
    intro idx
    cases hu : (uploads idx).1 with
    | true =>
      simp [flashLoop, hu, ih (idx + 1), List.range'_succ, List.filter_cons]
    | false =>
      simp [flashLoop, hu, ih (idx + 1), List.range'_succ, List.filter_cons]

/-- C2: a batch deployment with N ≥ 2 targets and k failing uploads
attempts every one of the N devices in request order, never aborts early,
records success count N − k and failure count k, and emits exactly one
failure event per failed device. -/
theorem c2_batch_orchestration (fs : String → Bool)
    (uploads : Nat → Bool × String) (d0 : Device) (rest : List Device)
    (path : String) (force : Bool) (hbatch : rest ≠ [])
    (hvalid : (validate_firmware_file fs d0.kind path).1 = true) :
    on_firmware_deploy fs uploads (d0 :: rest) path force =
      ⟨List.range (d0 :: rest).length,
        (d0 :: rest).length -
          ((List.range (d0 :: rest).length).filter
            (fun i => !(uploads i).1)).length,
        ((List.range (d0 :: rest).length).filter
          (fun i => !(uploads i).1)).length,
        ((List.range (d0 :: rest).length).filter
          (fun i => !(uploads i).1)).map (fun i => (i, (uploads i).2)),
        false,
        Outcome.batchCompleted
          ((d0 :: rest).length -
            ((List.range (d0 :: rest).length).filter
              (fun i => !(uploads i).1)).length)
          (((List.range (d0 :: rest).length).filter
            (fun i => !(uploads i).1)).length)⟩ := by
  have hb : (!rest.isEmpty) = true := by
    cases rest with
    | nil => exact absurd rfl hbatch
    | cons a l => rfl
  have hsucc :
      ((List.range' 0 (d0 :: rest).length).filter
        (fun i => (uploads i).1)).length =
      (d0 :: rest).length -
        ((List.range' 0 (d0 :: rest).length).filter
          (fun i => !(uploads i).1)).length := by
    have hlen := List.length_eq_length_filter_add
      (l := List.range' 0 (d0 :: rest).length) (fun i => (uploads i).1)
    rw [List.length_range'] at hlen
    omega
  simp only [List.length_cons] at hsucc
  simp only [on_firmware_deploy, hb, hvalid]
  rw [List.range_eq_range']
  simp [flashLoop_batch_spec uploads force (d0 :: rest) 0, hsucc,
    List.range_eq_range']

/-- C2 witness: batch of three devices, positions 0 and 2 fail. -/
theorem c2_batch_orchestration_witness :
    on_firmware_deploy (fun _ => true)
        (fun i => (decide (i = 1), "boom")) [devOnline, devOnline, devOnline]
        "fw.uf2" false =
      ⟨List.range 3,
        3 - ((List.range 3).filter
          (fun i => !(decide (i = 1), "boom").1)).length,
        ((List.range 3).filter (fun i => !(decide (i = 1), "boom").1)).length,
        ((List.range 3).filter (fun i => !(decide (i = 1), "boom").1)).map
          (fun i => (i, ((decide (i = 1) : Bool), "boom").2)),
        false,
        Outcome.batchCompleted
          (3 - ((List.range 3).filter
            (fun i => !(decide (i = 1), "boom").1)).length)
          (((List.range 3).filter
            (fun i => !(decide (i = 1), "boom").1)).length)⟩ :=
  c2_batch_orchestration (fun _ => true) (fun i => (decide (i = 1), "boom"))
    devOnline [devOnline, devOnline] "fw.uf2" false (by decide) (by decide)

/-- C3: a single-device deployment whose upload fails aborts immediately
(no settle/verify step, no further upload attempt), and the error dialog
carries the force-upload hint exactly when the force flag was not set. -/
theorem c3_single_failure_aborts (fs : String → Bool)
    (uploads : Nat → Bool × String) (d : Device) (path : String) (force : Bool)
    (hvalid : (validate_firmware_file fs d.kind path).1 = true)
    (hfail : (uploads 0).1 = false) :
    on_firmware_deploy fs uploads [d] path force =
      ⟨[0], 0, 1, [(0, (uploads 0).2)], false,
        Outcome.singleFailed (!force) (uploads 0).2⟩ := by
  simp [on_firmware_deploy, flashLoop, hvalid, hfail]

/-- C3 witness: one device, upload fails, force not set. -/
theorem c3_single_failure_aborts_witness :
    on_firmware_deploy (fun _ => true) (fun _ => (false, "boom")) [devOnline]
        "fw.uf2" false =
      ⟨[0], 0, 1, [(0, "boom")], false, Outcome.singleFailed true "boom"⟩ :=
  c3_single_failure_aborts (fun _ => true) (fun _ => (false, "boom"))
    devOnline "fw.uf2" false (by decide) rfl

/-- C6: a deployment (single or batch) whose firmware file fails validation
stops before the flashing phase: no upload attempt occurs and no device is
touched. -/
theorem c6_validation_failure_stops (fs : String → Bool)
    (uploads : Nat → Bool × String) (d0 : Device) (rest : List Device)
    (path : String) (force : Bool)
    (hinvalid : (validate_firmware_file fs d0.kind path).1 = false) :
    on_firmware_deploy fs uploads (d0 :: rest) path force =
      ⟨[], 0, 0, [], false,
        Outcome.validationFailed
          (validate_firmware_file fs d0.kind path).2⟩ := by
  simp [on_firmware_deploy, hinvalid]

/-- C6 witness: batch of three devices with a `.txt` firmware path. -/
theorem c6_validation_failure_stops_witness :
    on_firmware_deploy (fun _ => true) (fun _ => (true, "ok"))
        [devOnline, devOnline, devOnline] "fw.txt" false =
      ⟨[], 0, 0, [], false,
        Outcome.validationFailed
          (validate_firmware_file (fun _ => true) devOnline.kind "fw.txt").2⟩ :=
  c6_validation_failure_stops (fun _ => true) (fun _ => (true, "ok"))
    devOnline [devOnline, devOnline] "fw.txt" false (by decide)

/-! ## Claim about the deploy action of the device table -/

/-- C8: when the deploy action runs the deployment callback for a selected
device of kind Pico or PICO, the force flag passed to the callback is true
regardless of the force-upload checkbox, and the checkbox is reset to
false after the deployment returns. -/
theorem c8_pico_forces_upload (s : TableState) (sel : Device)
    (hsel : s.selected = some sel)
    (hkind : sel.kind = "Pico" ∨ sel.kind = "PICO")
    (targets : List Device) (path : String) (force : Bool)
    (hrun : (deploy_firmware s).1 = DeployOutcome.deployed targets path force) :
    force = true ∧ (deploy_firmware s).2.force_upload_checkbox = false := by
  by_cases h1 : strTruthy s.firmware_file_path = false
  · simp [deploy_firmware, hsel, h1] at hrun
  · by_cases h2 :
        (getDeployEligibility s.devices (some sel) s.batch_update_checkbox).1
          = false
    · simp [deploy_firmware, hsel, h1, h2] at hrun
    · have hforce :
          (if sel.kind = "Pico" ∨ sel.kind = "PICO" then true
            else s.force_upload_checkbox) = true := if_pos hkind
      constructor
      · simp [deploy_firmware, hsel, h1, h2, hforce] at hrun
        cases force with
        | true => rfl
        | false => simp at hrun
      · simp [deploy_firmware, hsel, h1, h2]

/-- Table state used by the C8 witness: an online Pico device selected,
firmware picked, force checkbox unchecked. -/
def demoTableState : TableState :=
  { devices := [devOnline], selected := some devOnline,
    firmware_file_path := some "fw.uf2", force_upload_checkbox := false,
    batch_update_checkbox := false }

/-- C8 witness: deploying to the demo Pico state passes force = true and
leaves the checkbox cleared. -/
theorem c8_pico_forces_upload_witness :
    true = true ∧ (deploy_firmware demoTableState).2.force_upload_checkbox = false :=
  c8_pico_forces_upload demoTableState devOnline rfl (Or.inl rfl)
    [devOnline] "fw.uf2" true (by decide)

end HarpUpdater
